import Mathlib

/-!
Verification of the meme-generation workflow in `meme_chain.py`.

The pipeline (a LangGraph `StateGraph` over `MemeState`) runs four stages in
a fixed sequence: `get_template_info` → `generate_multiple_captions` →
`select_best_caption` → `call_imgflip_api`.  Each stage is embedded below as
an explicit Lean function over an embedded state record; the outcomes of the
external calls (registry fetches, language-model invocations, the render
POST) are passed in as data, with `Option.none` standing for a raised
transport-level exception from the client library.  Python exceptions that
escape a stage are modelled with `Except`; `try/except` recovery is modelled
by `Option`-valued attempt functions with an explicit fallback.

`ast.literal_eval` and `json.loads` are modelled by executable recursive
parsers over the fragment of literals the workflow exercises (strings
without escapes, integers, booleans, null/None, lists, and JSON objects);
inputs outside this fragment decode to `none`, matching a decoding failure.
-/

/-- Python values produced by `ast.literal_eval` on the modelled fragment. -/
inductive PyVal where
  | str : String → PyVal
  | int : Int → PyVal
  | bool : Bool → PyVal
  | pynone : PyVal
  | list : List PyVal → PyVal
deriving Repr

/-- JSON values produced by `json.loads` on the modelled fragment.
Object pairs are kept in source order; duplicate keys are resolved by
`jget` (last occurrence wins, as in Python's `dict`). -/
inductive JVal where
  | jstr : String → JVal
  | jnum : Int → JVal
  | jbool : Bool → JVal
  | jnull : JVal
  | jarr : List JVal → JVal
  | jobj : List (String × JVal) → JVal
deriving Repr

/-- The whitespace characters recognised by Python's JSON/literal grammar. -/
def isWsChar (c : Char) : Bool :=
  c = ' ' || c = '\t' || c = '\n' || c = '\r'

/-- Drop leading whitespace characters. -/
def skipWs : List Char → List Char
  | [] => []
  | c :: cs => if isWsChar c then skipWs cs else c :: cs

/-- `str.strip()`: drop leading and trailing whitespace. -/
def pyStrip (s : String) : String :=
  String.mk ((skipWs (skipWs s.data.reverse).reverse))

/-- Lowercase a string character-wise, modelling Python's `str.lower()`
on the ASCII fragment. -/
def lowerStr (s : String) : String :=
  String.mk (s.data.map Char.toLower)

/-- Match a literal word at the head of the input, returning the rest. -/
def dropWord : List Char → List Char → Option (List Char)
  | [], cs => some cs
  | _ :: _, [] => none
  | w :: ws, c :: cs => if c = w then dropWord ws cs else none

/-- Does `pat` occur as a contiguous substring of `cs`? -/
def occursIn (pat : List Char) : List Char → Bool
  | [] => (dropWord pat []).isSome
  | c :: cs => (dropWord pat (c :: cs)).isSome || occursIn pat cs

/-- Collect a maximal run of decimal digits. -/
def takeDigits : List Char → (List Char × List Char)
  | [] => ([], [])
  | c :: cs =>
    if c.isDigit then
      let (ds, r) := takeDigits cs
      (c :: ds, r)
    else ([], c :: cs)

/-- Numeric value of a digit run. -/
def digitsToNat (ds : List Char) : Nat :=
  ds.foldl (fun a c => a * 10 + (c.toNat - 48)) 0

/-- Parse a (possibly negative) integer literal.  Leading zeros are
rejected (as both `json.loads` and Python 3 integer literals do). -/
def parseIntChars (cs : List Char) : Option (Int × List Char) :=
  match cs with
  | '-' :: rest =>
    match takeDigits rest with
    | ([], _) => none
    | (d :: ds, r) =>
      if d = '0' && ds ≠ [] then none
      else some (-(digitsToNat (d :: ds) : Int), r)
  | _ =>
    match takeDigits cs with
    | ([], _) => none
    | (d :: ds, r) =>
      if d = '0' && ds ≠ [] then none
      else some ((digitsToNat (d :: ds) : Int), r)

/-- Parse the body of a quoted string up to the closing quote `q`.
Backslash escapes and raw newlines are outside the modelled fragment. -/
def parseQuoted (q : Char) : List Char → Option (List Char × List Char)
  | [] => none
  | c :: cs =>
    if c = q then some ([], cs)
    else if c = '\\' || c = '\n' then none
    else
      match parseQuoted q cs with
      | some (s, r) => some (c :: s, r)
      | none => none

/-- The single-quote character (used by Python string literals). -/
def squote : Char := Char.ofNat 39

mutual

/-- Parse one Python literal (modelling `ast.literal_eval`'s grammar on
the fragment: strings, integers, `True`/`False`/`None`, lists). -/
def pLit : Nat → List Char → Option (PyVal × List Char)
  | 0, _ => none
  | fuel + 1, cs =>
    match skipWs cs with
    | [] => none
    | c :: rest =>
      if c = '[' then
        match pLitElems fuel rest with
        | some (vs, r) => some (.list vs, r)
        | none => none
      else if c = '"' || c = squote then
        match parseQuoted c rest with
        | some (s, r) => some (.str (String.mk s), r)
        | none => none
      else
        match dropWord "True".data (c :: rest) with
        | some r => some (.bool true, r)
        | none =>
          match dropWord "False".data (c :: rest) with
          | some r => some (.bool false, r)
          | none =>
            match dropWord "None".data (c :: rest) with
            | some r => some (.pynone, r)
            | none =>
              match parseIntChars (c :: rest) with
              | some (n, r) => some (.int n, r)
              | none => none

/-- Parse the elements of a Python list literal after the opening `[`.
A trailing comma is permitted, as in Python. -/
def pLitElems : Nat → List Char → Option (List PyVal × List Char)
  | 0, _ => none
  | fuel + 1, cs =>
    match skipWs cs with
    | ']' :: r => some ([], r)
    | cs0 =>
      match pLit fuel cs0 with
      | none => none
      | some (v, rest) =>
        match skipWs rest with
        | ']' :: r2 => some ([v], r2)
        | ',' :: r2 =>
          match pLitElems fuel r2 with
          | some (vs, r3) => some (v :: vs, r3)
          | none => none
        | _ => none

end

/-- `ast.literal_eval` on the modelled fragment: the whole input must be a
single literal surrounded only by whitespace. -/
def literal_eval (s : String) : Option PyVal :=
  match pLit (2 * s.data.length + 2) s.data with
  | some (v, rest) => if skipWs rest = [] then some v else none
  | none => none

mutual

/-- Parse one JSON value (modelling `json.loads` on the fragment:
strings without escapes, integers, `true`/`false`/`null`, arrays,
objects). -/
def pJson : Nat → List Char → Option (JVal × List Char)
  | 0, _ => none
  | fuel + 1, cs =>
    match skipWs cs with
    | [] => none
    | c :: rest =>
      if c = '[' then
        match skipWs rest with
        | ']' :: r => some (.jarr [], r)
        | cs0 =>
          match pJsonArr fuel cs0 with
          | some (vs, r) => some (.jarr vs, r)
          | none => none
      else if c = '\x7b' then
        match skipWs rest with
        | '\x7d' :: r => some (.jobj [], r)
        | cs0 =>
          match pJsonObj fuel cs0 with
          | some (kvs, r) => some (.jobj kvs, r)
          | none => none
      else if c = '"' then
        match parseQuoted '"' rest with
        | some (s, r) => some (.jstr (String.mk s), r)
        | none => none
      else
        match dropWord "true".data (c :: rest) with
        | some r => some (.jbool true, r)
        | none =>
          match dropWord "false".data (c :: rest) with
          | some r => some (.jbool false, r)
          | none =>
            match dropWord "null".data (c :: rest) with
            | some r => some (.jnull, r)
            | none =>
              match parseIntChars (c :: rest) with
              | some (n, r) => some (.jnum n, r)
              | none => none

/-- Parse the remaining elements of a non-empty JSON array (no trailing
comma, unlike Python lists). -/
def pJsonArr : Nat → List Char → Option (List JVal × List Char)
  | 0, _ => none
  | fuel + 1, cs =>
    match pJson fuel cs with
    | none => none
    | some (v, rest) =>
      match skipWs rest with
      | ']' :: r2 => some ([v], r2)
      | ',' :: r2 =>
        match pJsonArr fuel r2 with
        | some (vs, r3) => some (v :: vs, r3)
        | none => none
      | _ => none

/-- Parse the remaining members of a non-empty JSON object. -/
def pJsonObj : Nat → List Char → Option (List (String × JVal) × List Char)
  | 0, _ => none
  | fuel + 1, cs =>
    match skipWs cs with
    | '"' :: rest =>
      match parseQuoted '"' rest with
      | none => none
      | some (k, r1) =>
        match skipWs r1 with
        | ':' :: r2 =>
          match pJson fuel r2 with
          | none => none
          | some (v, r3) =>
            match skipWs r3 with
            | '\x7d' :: r4 => some ([(String.mk k, v)], r4)
            | ',' :: r4 =>
              match pJsonObj fuel r4 with
              | some (kvs, r5) => some ((String.mk k, v) :: kvs, r5)
              | none => none
            | _ => none
        | _ => none
    | _ => none

end

/-- `json.loads` on the modelled fragment: one JSON value surrounded only
by whitespace. -/
def json_loads (s : String) : Option JVal :=
  match pJson (2 * s.data.length + 2) s.data with
  | some (v, rest) => if skipWs rest = [] then some v else none
  | none => none

/-- Scan for the first `closeC`, keeping the consumed characters
(including the close). -/
def takeToClose (closeC : Char) : List Char → Option (List Char)
  | [] => none
  | c :: cs =>
    if c = closeC then some [c]
    else
      match takeToClose closeC cs with
      | some r => some (c :: r)
      | none => none

/-- The span matched by the non-greedy regex `openC .*? closeC` with
`re.DOTALL`: from the first `openC` to the first `closeC` after it. -/
def findSpan (openC closeC : Char) : List Char → Option (List Char)
  | [] => none
  | c :: cs =>
    if c = openC then
      match takeToClose closeC cs with
      | some r => some (c :: r)
      | none => none
    else findSpan openC closeC cs

/-- `re.search(r"\[.*?\]", content, re.DOTALL)` of the proposer. -/
def find_bracket_span (s : String) : Option String :=
  (findSpan '[' ']' s.data).map String.mk

/-- `re.search` for the first brace-delimited fragment in the judge. -/
def find_brace_span (s : String) : Option String :=
  (findSpan '\x7b' '\x7d' s.data).map String.mk

/-- A registry entry from `GET https://api.imgflip.com/get_memes`. -/
structure Template where
  name : String
  id : String
  box_count : Nat
deriving Repr

/-- The decoded response of the `caption_image` POST. -/
structure RenderResponse where
  success : Bool
  error_message : Option String
  url : String
deriving Repr

/-- The `MemeState` TypedDict threaded through the LangGraph pipeline.
`captions` and the candidates in `caption_proposals` are arbitrary Python
values because the parsing fallbacks can store non-list literals (see
`normalize_captions`); `selection_reasoning` is whatever JSON value the
judge's decoded object held. -/
structure MemeState where
  template_name : String
  box_count : Nat
  captions : PyVal
  meme_url : String
  query : String
  caption_proposals : List PyVal
  selected_caption_index : Nat
  selection_reasoning : JVal
deriving Repr

/-- Exceptions that escape a pipeline stage and abort the run. -/
inductive MemeErr where
  | templateNotFound (msg : String)
  | renderFailure (msg : String)
  | transport
  | pyError (msg : String)
deriving Repr

/-- The single-quote string used by the f-string error messages. -/
def sqs : String := String.mk [squote]

/-- `f"Template '{template_name}' not found"`. -/
def template_not_found_msg (name : String) : String :=
  "Template " ++ sqs ++ name ++ sqs ++ " not found"

/-- The case-insensitive name comparison used by both registry lookups:
`t["name"].lower() == template_name.lower()`. -/
def template_matches (name : String) (t : Template) : Bool :=
  lowerStr t.name == lowerStr name

/-- Stage `get_template_info`: fetch the registry (transport failure if
the fetch raises) and find the first case-insensitively matching entry;
set `box_count` on a match, raise `ValueError` otherwise. -/
def get_template_info (fetched : Option (List Template)) (st : MemeState) :
    Except MemeErr MemeState :=
  match fetched with
  | none => .error .transport
  | some templates =>
    match templates.find? (template_matches st.template_name) with
    | some t => .ok { st with box_count := t.box_count }
    | none => .error (.templateNotFound (template_not_found_msg st.template_name))

/-- The length-normalization block of the proposer, after a successful
`literal_eval`.  `len` raises on non-sequences (`int`, `bool`, `None`)
and `.extend` raises on strings shorter than 2 characters; a raise is
`none` (caught by the surrounding `except`).  Lists shorter than 2 are
padded with empty strings, longer ones truncated to the first 2;
strings longer than 2 characters are sliced to their first 2. -/
def normalize_captions (v : PyVal) : Option PyVal :=
  match v with
  | .list l =>
    if l.length < 2 then some (.list (l ++ List.replicate (2 - l.length) (.str "")))
    else if l.length > 2 then some (.list (l.take 2))
    else some (.list l)
  | .str s =>
    if s.data.length < 2 then none
    else if s.data.length > 2 then some (.str (String.mk (s.data.take 2)))
    else some (.str s)
  | _ => none

/-- The literal-extraction step of the proposer: strip the response, take
the first bracketed span if any and `literal_eval` it, otherwise
`literal_eval` the whole content. -/
def extract_literal (raw : String) : Option PyVal :=
  let content := pyStrip raw
  match find_bracket_span content with
  | some span => literal_eval span
  | none => literal_eval content

/-- The whole `try` block of the proposer for one response: extraction
followed by length normalization; `none` is any raised exception. -/
def parse_caption_response (raw : String) : Option PyVal :=
  match extract_literal raw with
  | some v => normalize_captions v
  | none => none

/-- The deterministic fallback candidate for index `i`:
`[f"Top Text {i+1}", f"Bottom Text {i+1}"]`. -/
def placeholder (i : Nat) : PyVal :=
  .list [.str ("Top Text " ++ toString (i + 1)),
         .str ("Bottom Text " ++ toString (i + 1))]

/-- One iteration of the proposer loop given the model's response text:
the parsed-and-normalized candidate, or the index-tagged placeholder if
the `try` block raised. -/
def propose_one (i : Nat) (raw : String) : PyVal :=
  match parse_caption_response raw with
  | some v => v
  | none => placeholder i

/-- Stage `generate_multiple_captions`: the two LLM invocations happen
outside the `try` block, so a transport failure in either aborts the
stage; otherwise the stage always succeeds, storing the two candidates
in index order. -/
def generate_multiple_captions (resp0 resp1 : Option String) (st : MemeState) :
    Except MemeErr MemeState :=
  match resp0 with
  | none => .error .transport
  | some r0 =>
    match resp1 with
    | none => .error .transport
    | some r1 =>
      .ok { st with caption_proposals := [propose_one 0 r0, propose_one 1 r1] }

/-- Python subscripting `v[i]` on a candidate value: lists index their
elements, strings their characters; other values raise. -/
def pyIndex (v : PyVal) (i : Nat) : Option PyVal :=
  match v with
  | .list l => l[i]?
  | .str s => (s.data[i]?).map (fun c => .str (String.mk [c]))
  | _ => none

/-- The judge prompt interpolates
`caption_proposals[0][0]`, `[0][1]`, `[1][0]`, `[1][1]` in its f-string
before the LLM call; any failing subscript raises out of the stage. -/
def build_judge_prompt (props : List PyVal) : Option (List PyVal) :=
  match props[0]?, props[1]? with
  | some p0, some p1 =>
    match pyIndex p0 0, pyIndex p0 1, pyIndex p1 0, pyIndex p1 1 with
    | some a, some b, some c, some d => some [a, b, c, d]
    | _, _, _, _ => none
  | _, _ => none

/-- `dict.get(k, d)` on a decoded JSON object (last duplicate wins). -/
def jget (kvs : List (String × JVal)) (k : String) (d : JVal) : JVal :=
  match kvs.reverse.find? (fun p => p.1 == k) with
  | some p => p.2
  | none => d

/-- `result.get("selected", 1) - 1`: integer subtraction, with Python's
bool-as-int coercion; any other value raises `TypeError`. -/
def sel_minus_one (v : JVal) : Option Int :=
  match v with
  | .jnum n => some (n - 1)
  | .jbool b => some ((if b then (1 : Int) else 0) - 1)
  | _ => none

/-- `if selected_idx not in [0, 1]: selected_idx = 0`. -/
def clamp_selected (sel : Int) : Nat :=
  if sel = 0 ∨ sel = 1 then sel.toNat else 0

/-- JSON extraction of the judge: first brace-delimited span if any,
else the whole content. -/
def judge_decode (content : String) : Option JVal :=
  match find_brace_span content with
  | some span => json_loads span
  | none => json_loads content

/-- The whole `try` block of the judge: decode, require a dict, read and
coerce `selected`, clamp it, read `reasoning` with its default, and index
the proposals.  `none` is any raised exception (caught by `except`). -/
def judge_attempt (proposals : List PyVal) (content : String) :
    Option (Nat × JVal × PyVal) :=
  match judge_decode content with
  | some (.jobj kvs) =>
    match sel_minus_one (jget kvs "selected" (.jnum 1)) with
    | some sel =>
      match proposals[clamp_selected sel]? with
      | some caps =>
        some (clamp_selected sel,
              jget kvs "reasoning" (.jstr "Selected as the funnier option."),
              caps)
      | none => none
    | none => none
  | _ => none

/-- Stage `select_best_caption`: the prompt's subscripts run first, then
the LLM call (transport failure aborts), then the `try` block; on any
exception in it the `except` branch defaults to index 0 with the generic
rationale — which itself raises `IndexError` if there are no proposals. -/
def select_best_caption (resp : Option String) (st : MemeState) :
    Except MemeErr MemeState :=
  match build_judge_prompt st.caption_proposals with
  | none => .error (.pyError "IndexError")
  | some _ =>
    match resp with
    | none => .error .transport
    | some raw =>
      match judge_attempt st.caption_proposals (pyStrip raw) with
      | some (idx, reasoning, caps) =>
        .ok { st with selected_caption_index := idx,
                      selection_reasoning := reasoning,
                      captions := caps }
      | none =>
        match st.caption_proposals[0]? with
        | some c =>
          .ok { st with selected_caption_index := 0,
                        selection_reasoning := .jstr "Selected first option by default.",
                        captions := c }
        | none => .error (.pyError "IndexError")

/-- Python iteration `enumerate(state["captions"])`: lists yield their
elements, strings their characters; other values raise `TypeError`. -/
def pyIter (v : PyVal) : Option (List PyVal) :=
  match v with
  | .list l => some l
  | .str s => some (s.data.map (fun c => .str (String.mk [c])))
  | _ => none

/-- The `params` dict of the render POST: template id and credentials,
then one `text{i}` entry per enumerated caption, in order. -/
def build_render_params (tid user pw : String) (captions : PyVal) :
    Option (List (String × PyVal)) :=
  (pyIter captions).map (fun caps =>
    [("template_id", PyVal.str tid), ("username", PyVal.str user),
     ("password", PyVal.str pw)]
    ++ caps.enum.map (fun p => ("text" ++ toString p.1, p.2)))

/-- Stage `call_imgflip_api`: fresh registry fetch, the same
case-insensitive lookup as `get_template_info` (raising the same
`ValueError` on a miss), request construction, the POST (transport
failure aborts), and the provider's success flag — a reported failure
raises `RuntimeError("Imgflip API failed: " + error_message)`. -/
def call_imgflip_api (fetched : Option (List Template))
    (resp : Option RenderResponse) (user pw : String) (st : MemeState) :
    Except MemeErr MemeState :=
  match fetched with
  | none => .error .transport
  | some templates =>
    match templates.find? (template_matches st.template_name) with
    | none => .error (.templateNotFound (template_not_found_msg st.template_name))
    | some t =>
      match build_render_params t.id user pw st.captions with
      | none => .error (.pyError "TypeError")
      | some _ =>
        match resp with
        | none => .error .transport
        | some res =>
          if res.success then .ok { st with meme_url := res.url }
          else .error (.renderFailure
            ("Imgflip API failed: " ++ res.error_message.getD "Unknown error"))

/-- The stages of the compiled workflow graph. -/
inductive Stage where
  | resolving
  | proposing
  | judging
  | rendering
deriving Repr, DecidableEq

/-- Outcomes of the external calls a single run performs, with `none`
standing for a raised transport-level exception. -/
structure Env where
  fetch1 : Option (List Template)
  resp0 : Option String
  resp1 : Option String
  judgeResp : Option String
  fetch2 : Option (List Template)
  renderResp : Option RenderResponse
  user : String
  pw : String

/-- The result of one workflow run: the final state, or the stage at
which an uncaught exception aborted the graph. -/
inductive RunResult where
  | done (st : MemeState)
  | failed (at_stage : Stage) (e : MemeErr)
deriving Repr

/-- The compiled `meme_chain` graph: the four nodes in sequence, an
uncaught exception at any node terminating the run. -/
def run_chain (env : Env) (init : MemeState) : RunResult :=
  match get_template_info env.fetch1 init with
  | .error e => .failed .resolving e
  | .ok s1 =>
    match generate_multiple_captions env.resp0 env.resp1 s1 with
    | .error e => .failed .proposing e
    | .ok s2 =>
      match select_best_caption env.judgeResp s2 with
      | .error e => .failed .judging e
      | .ok s3 =>
        match call_imgflip_api env.fetch2 env.renderResp env.user env.pw s3 with
        | .error e => .failed .rendering e
        | .ok s4 => .done s4

/-- An initial workflow state as built by the caller. -/
def initState (query tname : String) : MemeState :=
  { template_name := tname, box_count := 0, captions := .list [],
    meme_url := "", query := query, caption_proposals := [],
    selected_caption_index := 0, selection_reasoning := .jnull }

/-- A demonstration registry snapshot. -/
def demoRegistry : List Template :=
  [{ name := "Two Buttons", id := "87743020", box_count := 2 }]

/-- A state as it reaches the judge: its candidates are proposer outputs. -/
def demoJudgeState : MemeState :=
  { initState "cats" "Two Buttons" with
      caption_proposals :=
        [propose_one 0 "[\"a\", \"b\"]", propose_one 1 "bad output"] }

/-- Is a candidate a pair of exactly two caption strings? -/
def is_string_pair (v : PyVal) : Bool :=
  match v with
  | .list [.str _, .str _] => true
  | _ => false

/-- The two placeholder candidates differ (they are tagged by index). -/
theorem placeholder_ne : placeholder 0 ≠ placeholder 1 := by
  intro hcon
  simp only [placeholder, PyVal.list.injEq, List.cons.injEq, PyVal.str.injEq] at hcon
  exact absurd hcon.1 (by decide)

/-- C2: for every pair of model responses the proposer stage returns
exactly 2 candidates without raising from parsing; every parse-failed
index stores its deterministic, index-tagged placeholder pair, and the
two placeholders are distinguishable. -/
theorem c2_parse_errors_absorbed_locally (r0 r1 : String) (st : MemeState) :
    ∃ st', generate_multiple_captions (some r0) (some r1) st = .ok st' ∧
      st'.caption_proposals.length = 2 ∧
      (parse_caption_response r0 = none →
        st'.caption_proposals[0]? = some (placeholder 0)) ∧
      (parse_caption_response r1 = none →
        st'.caption_proposals[1]? = some (placeholder 1)) ∧
      placeholder 0 ≠ placeholder 1 := by
  refine ⟨_, rfl, rfl, ?_, ?_, placeholder_ne⟩
  · intro h; simp [propose_one, h]
  · intro h; simp [propose_one, h]

/-- C2 witness: both demonstration responses are unparsable (no bracket,
not a literal; and an empty string), and the claim instantiates there. -/
theorem c2_witness :
    parse_caption_response "garbage" = none ∧
    parse_caption_response "" = none ∧
    (∃ st', generate_multiple_captions (some "garbage") (some "")
        (initState "cats" "Two Buttons") = .ok st' ∧
      st'.caption_proposals.length = 2 ∧
      (parse_caption_response "garbage" = none →
        st'.caption_proposals[0]? = some (placeholder 0)) ∧
      (parse_caption_response "" = none →
        st'.caption_proposals[1]? = some (placeholder 1)) ∧
      placeholder 0 ≠ placeholder 1) :=
  ⟨rfl, rfl, c2_parse_errors_absorbed_locally "garbage" "" (initState "cats" "Two Buttons")⟩

/-- C7: a successfully decoded caption list literal is padded with empty
strings when shorter than 2, truncated to its first 2 elements when
longer, and the stored candidate always has exactly 2 elements. -/
theorem c7_length_normalization (i : Nat) (raw : String) (l : List PyVal)
    (h : extract_literal raw = some (.list l)) :
    (l.length < 2 →
      propose_one i raw = .list (l ++ List.replicate (2 - l.length) (.str ""))) ∧
    (l.length > 2 → propose_one i raw = .list (l.take 2)) ∧
    ∃ l2, propose_one i raw = .list l2 ∧ l2.length = 2 := by
  have hp : parse_caption_response raw = normalize_captions (.list l) := by
    simp [parse_caption_response, h]
  refine ⟨?_, ?_, ?_⟩
  · intro hl
    simp [propose_one, hp, normalize_captions, hl]
  · intro hl
    have hnl : ¬ l.length < 2 := by omega
    simp [propose_one, hp, normalize_captions, hnl, hl]
  · rcases l with _ | ⟨a, _ | ⟨b, rest⟩⟩
    · exact ⟨[.str "", .str ""], by simp [propose_one, hp, normalize_captions], rfl⟩
    · exact ⟨[a, .str ""], by simp [propose_one, hp, normalize_captions], rfl⟩
    · rcases rest with _ | ⟨c, rest2⟩
      · exact ⟨[a, b], by simp [propose_one, hp, normalize_captions], rfl⟩
      · refine ⟨[a, b], ?_, rfl⟩
        have hn2 : ¬ (a :: b :: c :: rest2).length < 2 := by
          simp only [List.length_cons]; omega
        have hg2 : (a :: b :: c :: rest2).length > 2 := by
          simp only [List.length_cons]; omega
        have hnorm : normalize_captions (.list (a :: b :: c :: rest2)) = some (.list [a, b]) := by
          simp only [normalize_captions]
          rw [if_neg hn2, if_pos hg2]
          rfl
        simp [propose_one, hp, hnorm]

/-- C7 witness: a one-element list literal is padded to two elements. -/
theorem c7_witness :
    extract_literal "[\"only one\"]" = some (.list [.str "only one"]) ∧
    ([PyVal.str "only one"].length < 2 →
      propose_one 0 "[\"only one\"]" =
        .list ([PyVal.str "only one"] ++
          List.replicate (2 - [PyVal.str "only one"].length) (.str ""))) ∧
    ([PyVal.str "only one"].length > 2 →
      propose_one 0 "[\"only one\"]" = .list ([PyVal.str "only one"].take 2)) ∧
    ∃ l2, propose_one 0 "[\"only one\"]" = .list l2 ∧ l2.length = 2 :=
  ⟨rfl, (c7_length_normalization 0 "[\"only one\"]" [PyVal.str "only one"] rfl)⟩

/-- C9: there are model responses whose parsing succeeds but whose stored
candidate is not a pair of 2 caption strings: a quoted string with no
bracketed span is truncated to its first 2 characters and stored as a
string, and a 2-element list of integers is stored as-is. -/
theorem c9_non_pair_candidates :
    parse_caption_response "\"hello\"" = some (.str "he") ∧
    propose_one 0 "\"hello\"" = .str "he" ∧
    is_string_pair (.str "he") = false ∧
    parse_caption_response "[1, 2]" = some (.list [.int 1, .int 2]) ∧
    propose_one 0 "[1, 2]" = .list [.int 1, .int 2] ∧
    is_string_pair (.list [.int 1, .int 2]) = false :=
  ⟨rfl, rfl, rfl, rfl, rfl, rfl⟩

/-- C8: when the final captions are a pair of strings, the render request
carries the first caption as parameter `text0` and the second as `text1`,
in that order after the credential parameters. -/
theorem c8_caption_round_trip (tid user pw a b : String) :
    ∃ ps, build_render_params tid user pw (.list [.str a, .str b]) = some ps ∧
      ps = [("template_id", PyVal.str tid), ("username", PyVal.str user),
            ("password", PyVal.str pw), ("text0", PyVal.str a), ("text1", PyVal.str b)] ∧
      ps.lookup "text0" = some (.str a) ∧
      ps.lookup "text1" = some (.str b) := by
  have h0 : ("text" ++ toString (0 : Nat) : String) = "text0" := rfl
  have h1 : ("text" ++ toString (1 : Nat) : String) = "text1" := rfl
  refine ⟨[("template_id", PyVal.str tid), ("username", PyVal.str user),
           ("password", PyVal.str pw), ("text0", PyVal.str a), ("text1", PyVal.str b)],
          ?_, rfl, rfl, rfl⟩
  simp [build_render_params, pyIter, List.enum, List.enumFrom, h0, h1]

/-- C4 amended: a provider-reported failure raises a `RuntimeError` whose
message is the provider's `error_message` prefixed with
`"Imgflip API failed: "`; the provider's message is carried verbatim as a
suffix, but the exception's message is not exactly the provider's. -/
theorem c4_render_failure_message (templates : List Template) (t : Template)
    (res : RenderResponse) (msg user pw : String) (st : MemeState)
    (hm : templates.find? (template_matches st.template_name) = some t)
    (hc : (build_render_params t.id user pw st.captions).isSome = true)
    (hs : res.success = false) (he : res.error_message = some msg) :
    call_imgflip_api (some templates) (some res) user pw st =
      .error (.renderFailure ("Imgflip API failed: " ++ msg)) := by
  rcases Option.isSome_iff_exists.mp hc with ⟨ps, hps⟩
  simp [call_imgflip_api, hm, hps, hs, he]

/-- C4 witness: the amended claim instantiated at the scenario of the
specification (provider message `"invalid credentials"`). -/
theorem c4_witness :
    call_imgflip_api (some demoRegistry)
        (some { success := false, error_message := some "invalid credentials", url := "" })
        "u" "p"
        { initState "cats" "Two Buttons" with captions := .list [.str "a", .str "b"] } =
      .error (.renderFailure ("Imgflip API failed: " ++ "invalid credentials")) :=
  c4_render_failure_message demoRegistry
    { name := "Two Buttons", id := "87743020", box_count := 2 }
    { success := false, error_message := some "invalid credentials", url := "" }
    "invalid credentials" "u" "p"
    { initState "cats" "Two Buttons" with captions := .list [.str "a", .str "b"] }
    rfl rfl rfl rfl

/-- C4 counterexample: with provider message `"invalid credentials"` the
raised error's message is `"Imgflip API failed: invalid credentials"`,
which is not exactly the provider's message, refuting the claim that the
failure carries exactly the provider's `error_message`. -/
theorem c4_counterexample :
    call_imgflip_api (some demoRegistry)
        (some { success := false, error_message := some "invalid credentials", url := "" })
        "u" "p"
        { initState "cats" "Two Buttons" with captions := .list [.str "a", .str "b"] } =
      .error (.renderFailure "Imgflip API failed: invalid credentials") ∧
    ("Imgflip API failed: invalid credentials" : String) ≠ "invalid credentials" :=
  ⟨rfl, by decide⟩

/-- C5 amended: resolution with a case-insensitively matching entry
succeeds and copies that entry's `box_count`; with no matching entry it
raises a template-not-found `ValueError` whose message carries the
requested name (not the normalized name), and the run fails at the
Resolving stage, so no later stage runs. -/
theorem c5_template_resolution (templates : List Template) (st : MemeState) :
    (∀ t, templates.find? (template_matches st.template_name) = some t →
      get_template_info (some templates) st = .ok { st with box_count := t.box_count }) ∧
    (templates.find? (template_matches st.template_name) = none →
      get_template_info (some templates) st =
        .error (.templateNotFound (template_not_found_msg st.template_name)) ∧
      ∀ env : Env, env.fetch1 = some templates →
        run_chain env st =
          .failed .resolving (.templateNotFound (template_not_found_msg st.template_name))) := by
  constructor
  · intro t h
    simp [get_template_info, h]
  · intro h
    constructor
    · simp [get_template_info, h]
    · intro env henv
      simp [run_chain, get_template_info, henv, h]

/-- C5 witness: the amended claim instantiated on a concrete snapshot,
once with a differently-cased present name and once with an absent name
(the latter also aborting a concrete run at Resolving). -/
theorem c5_witness :
    get_template_info (some demoRegistry) (initState "cats" "two BUTTONS") =
      .ok { initState "cats" "two BUTTONS" with box_count := 2 } ∧
    get_template_info (some demoRegistry) (initState "cats" "Nonexistent Template") =
      .error (.templateNotFound (template_not_found_msg "Nonexistent Template")) ∧
    run_chain
      { fetch1 := some demoRegistry, resp0 := none, resp1 := none, judgeResp := none,
        fetch2 := none, renderResp := none, user := "u", pw := "p" }
      (initState "cats" "Nonexistent Template") =
      .failed .resolving (.templateNotFound (template_not_found_msg "Nonexistent Template")) := by
  refine ⟨?_, ?_, ?_⟩
  · exact (c5_template_resolution demoRegistry (initState "cats" "two BUTTONS")).1
      { name := "Two Buttons", id := "87743020", box_count := 2 } rfl
  · exact ((c5_template_resolution demoRegistry (initState "cats" "Nonexistent Template")).2 rfl).1
  · exact ((c5_template_resolution demoRegistry (initState "cats" "Nonexistent Template")).2 rfl).2
      _ rfl

/-- C5 counterexample: for the absent requested name `"AbC"` the raised
error's message contains the requested name but not the normalized
(lowercased) name `"abc"`, refuting the claim that the error carries the
requested and normalized names. -/
theorem c5_counterexample :
    get_template_info (some demoRegistry) (initState "cats" "AbC") =
      .error (.templateNotFound (template_not_found_msg "AbC")) ∧
    occursIn "AbC".data (template_not_found_msg "AbC").data = true ∧
    lowerStr "AbC" = "abc" ∧
    occursIn "abc".data (template_not_found_msg "AbC").data = false :=
  ⟨rfl, rfl, rfl, rfl⟩

/-- The clamped selection index is always 0 or 1. -/
theorem clamp_selected_mem (sel : Int) :
    clamp_selected sel = 0 ∨ clamp_selected sel = 1 := by
  unfold clamp_selected
  split
  · rename_i h
    rcases h with h | h <;> simp [h]
  · left; rfl

/-- Every value a successful normalization stores supports the two
subscripts the judge prompt performs on it. -/
theorem normalize_captions_two_items (w v : PyVal)
    (h : normalize_captions w = some v) :
    (pyIndex v 0).isSome = true ∧ (pyIndex v 1).isSome = true := by
  cases w with
  | str s =>
    rcases s with ⟨cs⟩
    rcases cs with _ | ⟨c1, _ | ⟨c2, rest⟩⟩
    · simp [normalize_captions] at h
    · simp [normalize_captions] at h
    · rcases rest with _ | ⟨c3, rest2⟩
      · simp only [normalize_captions] at h
        rw [if_neg (by simp), if_neg (by simp)] at h
        obtain rfl := Option.some.inj h
        exact ⟨rfl, rfl⟩
      · simp only [normalize_captions] at h
        rw [if_neg (by simp only [List.length_cons]; omega),
            if_pos (by simp only [List.length_cons]; omega)] at h
        obtain rfl := Option.some.inj h
        exact ⟨rfl, rfl⟩
  | int n => simp [normalize_captions] at h
  | bool b => simp [normalize_captions] at h
  | pynone => simp [normalize_captions] at h
  | list l =>
    rcases l with _ | ⟨a, _ | ⟨b, rest⟩⟩
    · simp only [normalize_captions] at h
      rw [if_pos (by simp)] at h
      obtain rfl := Option.some.inj h
      exact ⟨rfl, rfl⟩
    · simp only [normalize_captions] at h
      rw [if_pos (by simp)] at h
      obtain rfl := Option.some.inj h
      exact ⟨rfl, rfl⟩
    · rcases rest with _ | ⟨c, rest2⟩
      · simp only [normalize_captions] at h
        rw [if_neg (by simp), if_neg (by simp)] at h
        obtain rfl := Option.some.inj h
        exact ⟨rfl, rfl⟩
      · simp only [normalize_captions] at h
        rw [if_neg (by simp only [List.length_cons]; omega),
            if_pos (by simp only [List.length_cons]; omega)] at h
        obtain rfl := Option.some.inj h
        exact ⟨rfl, rfl⟩

/-- Every candidate the proposer stores (parsed or placeholder) supports
the two subscripts the judge prompt performs on it. -/
theorem propose_one_two_items (i : Nat) (r : String) :
    (pyIndex (propose_one i r) 0).isSome = true ∧
    (pyIndex (propose_one i r) 1).isSome = true := by
  unfold propose_one
  cases hp : parse_caption_response r with
  | none => exact ⟨rfl, rfl⟩
  | some v =>
    unfold parse_caption_response at hp
    cases he : extract_literal r with
    | none => rw [he] at hp; exact absurd hp (by simp)
    | some w =>
      rw [he] at hp
      exact normalize_captions_two_items w v hp

/-- The judge prompt's subscripts always succeed on proposer output. -/
theorem build_judge_prompt_of_proposer (r0 r1 : String) :
    (build_judge_prompt [propose_one 0 r0, propose_one 1 r1]).isSome = true := by
  obtain ⟨h00, h01⟩ := propose_one_two_items 0 r0
  obtain ⟨h10, h11⟩ := propose_one_two_items 1 r1
  rcases Option.isSome_iff_exists.mp h00 with ⟨a, ha⟩
  rcases Option.isSome_iff_exists.mp h01 with ⟨b, hb⟩
  rcases Option.isSome_iff_exists.mp h10 with ⟨c, hc⟩
  rcases Option.isSome_iff_exists.mp h11 with ⟨d, hd⟩
  simp [build_judge_prompt, ha, hb, hc, hd]

/-- Inversion of the judge's `try` block: when it succeeds, the selected
index is 0 or 1 and the stored captions are the candidate at that index. -/
theorem judge_attempt_inv (props : List PyVal) (content : String)
    (idx : Nat) (rs : JVal) (cp : PyVal)
    (h : judge_attempt props content = some (idx, rs, cp)) :
    (idx = 0 ∨ idx = 1) ∧ props[idx]? = some cp := by
  unfold judge_attempt at h
  split at h
  · split at h
    · split at h
      · rename_i kvs sel hsel caps hprops
        simp only [Option.some.injEq, Prod.mk.injEq] at h
        obtain ⟨h1, _, h3⟩ := h
        subst h1; subst h3
        exact ⟨clamp_selected_mem _, hprops⟩
      · exact absurd h (by simp)
    · exact absurd h (by simp)
  · exact absurd h (by simp)

/-- On any state produced by the proposer, the judge stage always
completes: it never raises for any response text, its selected index is
in range, it leaves the candidates and the template name unchanged, and
its final captions are the candidate at the selected index. -/
theorem select_ok_of_proposer (r0 r1 resp : String) (st : MemeState)
    (h : st.caption_proposals = [propose_one 0 r0, propose_one 1 r1]) :
    ∃ st', select_best_caption (some resp) st = .ok st' ∧
      st'.caption_proposals = st.caption_proposals ∧
      st'.template_name = st.template_name ∧
      (st'.selected_caption_index = 0 ∨ st'.selected_caption_index = 1) ∧
      st'.caption_proposals[st'.selected_caption_index]? = some st'.captions := by
  have hbp : (build_judge_prompt st.caption_proposals).isSome = true := by
    rw [h]; exact build_judge_prompt_of_proposer r0 r1
  rcases Option.isSome_iff_exists.mp hbp with ⟨q, hq⟩
  cases hj : judge_attempt st.caption_proposals (pyStrip resp) with
  | some t =>
    obtain ⟨idx, rs, cp⟩ := t
    obtain ⟨hmem, hlook⟩ := judge_attempt_inv _ _ _ _ _ hj
    refine ⟨{ st with
                selected_caption_index := idx
                selection_reasoning := rs
                captions := cp }, ?_, rfl, rfl, hmem, hlook⟩
    simp [select_best_caption, hq, hj]
  | none =>
    refine ⟨{ st with
                selected_caption_index := 0
                selection_reasoning := .jstr "Selected first option by default."
                captions := propose_one 0 r0 }, ?_, rfl, rfl, Or.inl rfl, ?_⟩
    · rw [h] at hq hj
      simp [select_best_caption, hq, hj, h]
    · simp [h]

/-- On proposer output, a transport failure of the judge's model call is
the only way the judge stage can abort. -/
theorem select_transport_of_proposer (r0 r1 : String) (st : MemeState)
    (h : st.caption_proposals = [propose_one 0 r0, propose_one 1 r1]) :
    select_best_caption none st = .error .transport := by
  have hbp : (build_judge_prompt st.caption_proposals).isSome = true := by
    rw [h]; exact build_judge_prompt_of_proposer r0 r1
  rcases Option.isSome_iff_exists.mp hbp with ⟨q, hq⟩
  simp [select_best_caption, hq]

/-- C1: for every model response given to the judge stage (well-formed or
malformed), on proposer-produced candidates the Judging stage completes
with `selected_caption_index` in {0, 1} and `captions` equal to
`caption_proposals[selected_caption_index]`. -/
theorem c1_judge_selection_invariant (r0 r1 resp : String) (st : MemeState)
    (h : st.caption_proposals = [propose_one 0 r0, propose_one 1 r1]) :
    ∃ st', select_best_caption (some resp) st = .ok st' ∧
      st'.caption_proposals = st.caption_proposals ∧
      (st'.selected_caption_index = 0 ∨ st'.selected_caption_index = 1) ∧
      st'.caption_proposals[st'.selected_caption_index]? = some st'.captions := by
  obtain ⟨st', h1, h2, _, h4, h5⟩ := select_ok_of_proposer r0 r1 resp st h
  exact ⟨st', h1, h2, h4, h5⟩

/-- C1 witness: the invariant instantiated on a concrete judge-stage
state (one parsed candidate, one placeholder) and a malformed response. -/
theorem c1_witness :
    demoJudgeState.caption_proposals =
      [propose_one 0 "[\"a\", \"b\"]", propose_one 1 "bad output"] ∧
    (∃ st', select_best_caption (some "not even json") demoJudgeState = .ok st' ∧
      st'.caption_proposals = demoJudgeState.caption_proposals ∧
      (st'.selected_caption_index = 0 ∨ st'.selected_caption_index = 1) ∧
      st'.caption_proposals[st'.selected_caption_index]? = some st'.captions) :=
  ⟨rfl, c1_judge_selection_invariant "[\"a\", \"b\"]" "bad output" "not even json"
    demoJudgeState rfl⟩

/-- C3 amended: when decoding of the judge response fails entirely the
judge defaults to index 0 with the generic fallback rationale
"Selected first option by default."; when decoding succeeds but the
decoded `selected` is out of range (not 1 or 2), the index still
defaults to 0 but the rationale is the decoded object's `reasoning`
field (or "Selected as the funnier option." when absent), not the
generic fallback. -/
theorem c3_judge_fallbacks (r0 r1 resp : String) (st : MemeState)
    (h : st.caption_proposals = [propose_one 0 r0, propose_one 1 r1]) :
    (judge_decode (pyStrip resp) = none →
      select_best_caption (some resp) st =
        .ok { st with
                selected_caption_index := 0
                selection_reasoning := .jstr "Selected first option by default."
                captions := propose_one 0 r0 }) ∧
    (∀ kvs n, judge_decode (pyStrip resp) = some (.jobj kvs) →
      jget kvs "selected" (.jnum 1) = .jnum n →
      n - 1 ≠ 0 → n - 1 ≠ 1 →
      select_best_caption (some resp) st =
        .ok { st with
                selected_caption_index := 0
                selection_reasoning :=
                  jget kvs "reasoning" (.jstr "Selected as the funnier option.")
                captions := propose_one 0 r0 }) := by
  have hbp : (build_judge_prompt st.caption_proposals).isSome = true := by
    rw [h]; exact build_judge_prompt_of_proposer r0 r1
  rcases Option.isSome_iff_exists.mp hbp with ⟨q, hq⟩
  constructor
  · intro hd
    have hj : judge_attempt st.caption_proposals (pyStrip resp) = none := by
      unfold judge_attempt; rw [hd]
    rw [h] at hq hj
    simp [select_best_caption, hq, hj, h]
  · intro kvs n hd hsel hn0 hn1
    have hcl : clamp_selected (n - 1) = 0 := by
      unfold clamp_selected
      rw [if_neg]
      intro hcon
      rcases hcon with hcon | hcon
      · exact hn0 hcon
      · exact hn1 hcon
    have hj : judge_attempt st.caption_proposals (pyStrip resp) =
        some (0, jget kvs "reasoning" (.jstr "Selected as the funnier option."),
              propose_one 0 r0) := by
      unfold judge_attempt
      rw [hd]
      simp [sel_minus_one, hsel, hcl, h]
    rw [h] at hq hj
    simp [select_best_caption, hq, hj, h]

/-- C3 witness: a response with no JSON-like fragment hits the
decode-failure fallback: index 0 and the generic rationale. -/
theorem c3_witness :
    judge_decode (pyStrip "no json at all") = none ∧
    select_best_caption (some "no json at all") demoJudgeState =
      .ok { demoJudgeState with
              selected_caption_index := 0
              selection_reasoning := .jstr "Selected first option by default."
              captions := propose_one 0 "[\"a\", \"b\"]" } :=
  ⟨rfl, (c3_judge_fallbacks "[\"a\", \"b\"]" "bad output" "no json at all"
    demoJudgeState rfl).1 rfl⟩

/-- C3 counterexample: a decoded judge object with the out-of-range
`selected` value 5 keeps the decoded reasoning ("nice") as rationale
instead of the generic fallback string, refuting the claim that the
out-of-range case also sets the generic fallback rationale. -/
theorem c3_counterexample :
    select_best_caption (some "\x7b\"selected\": 5, \"reasoning\": \"nice\"\x7d")
        demoJudgeState =
      .ok { demoJudgeState with
              selected_caption_index := 0
              selection_reasoning := .jstr "nice"
              captions := propose_one 0 "[\"a\", \"b\"]" } ∧
    ("nice" : String) ≠ "Selected first option by default." ∧
    ("nice" : String) ≠ "selected first option by default" :=
  ⟨rfl, by decide, by decide⟩

/-- C6 amended: an abort at Proposing or Judging can only carry a
transport-level error from the language-model client; whenever both
proposer calls and the judge call return response text, Proposing and
Judging never fail (their parse errors are recovered locally), so Failed
is reachable from Resolving and Rendering, and from Proposing/Judging
only through a client transport error. -/
theorem c6_failure_reachability (env : Env) (st : MemeState) :
    (∀ e, run_chain env st = .failed .proposing e → e = .transport) ∧
    (∀ e, run_chain env st = .failed .judging e → e = .transport) ∧
    (env.resp0.isSome = true → env.resp1.isSome = true →
      env.judgeResp.isSome = true →
      ∀ e, run_chain env st ≠ .failed .proposing e ∧
           run_chain env st ≠ .failed .judging e) := by
  cases hg : get_template_info env.fetch1 st with
  | error e0 =>
    have hr : run_chain env st = .failed .resolving e0 := by
      simp [run_chain, hg]
    refine ⟨fun e he => ?_, fun e he => ?_, fun _ _ _ e => ⟨fun he => ?_, fun he => ?_⟩⟩ <;>
      · rw [hr] at he
        exact RunResult.noConfusion he (fun hst _ => Stage.noConfusion hst)
  | ok s1 =>
    cases h0 : env.resp0 with
    | none =>
      have hr : run_chain env st = .failed .proposing .transport := by
        simp [run_chain, hg, generate_multiple_captions, h0]
      refine ⟨fun e he => ?_, fun e he => ?_, fun ha _ _ e => ⟨fun he => ?_, fun he => ?_⟩⟩
      · rw [hr] at he
        exact RunResult.noConfusion he (fun _ hme => hme.symm)
      · rw [hr] at he
        exact RunResult.noConfusion he (fun hst _ => Stage.noConfusion hst)
      · exact absurd ha (by simp)
      · exact absurd ha (by simp)
    | some r0 =>
      cases h1 : env.resp1 with
      | none =>
        have hr : run_chain env st = .failed .proposing .transport := by
          simp [run_chain, hg, generate_multiple_captions, h0, h1]
        refine ⟨fun e he => ?_, fun e he => ?_, fun _ hb _ e => ⟨fun he => ?_, fun he => ?_⟩⟩
        · rw [hr] at he
          exact RunResult.noConfusion he (fun _ hme => hme.symm)
        · rw [hr] at he
          exact RunResult.noConfusion he (fun hst _ => Stage.noConfusion hst)
        · exact absurd hb (by simp)
        · exact absurd hb (by simp)
      | some r1 =>
        have hgen : generate_multiple_captions env.resp0 env.resp1 s1 =
            .ok { s1 with caption_proposals := [propose_one 0 r0, propose_one 1 r1] } := by
          simp [generate_multiple_captions, h0, h1]
        cases hjr : env.judgeResp with
        | none =>
          have hsel := select_transport_of_proposer r0 r1
            { s1 with caption_proposals := [propose_one 0 r0, propose_one 1 r1] } rfl
          have hr : run_chain env st = .failed .judging .transport := by
            simp [run_chain, hg, hgen, hjr, hsel]
          refine ⟨fun e he => ?_, fun e he => ?_, fun _ _ hc e => ⟨fun he => ?_, fun he => ?_⟩⟩
          · rw [hr] at he
            exact RunResult.noConfusion he (fun hst _ => Stage.noConfusion hst)
          · rw [hr] at he
            exact RunResult.noConfusion he (fun _ hme => hme.symm)
          · exact absurd hc (by simp)
          · exact absurd hc (by simp)
        | some jr =>
          obtain ⟨st3, hsel, -, -, -, -⟩ := select_ok_of_proposer r0 r1 jr
            { s1 with caption_proposals := [propose_one 0 r0, propose_one 1 r1] } rfl
          cases hc : call_imgflip_api env.fetch2 env.renderResp env.user env.pw st3 with
          | error e4 =>
            have hr : run_chain env st = .failed .rendering e4 := by
              simp [run_chain, hg, hgen, hjr, hsel, hc]
            refine ⟨fun e he => ?_, fun e he => ?_,
                    fun _ _ _ e => ⟨fun he => ?_, fun he => ?_⟩⟩ <;>
              · rw [hr] at he
                exact RunResult.noConfusion he (fun hst _ => Stage.noConfusion hst)
          | ok s4 =>
            have hr : run_chain env st = .done s4 := by
              simp [run_chain, hg, hgen, hjr, hsel, hc]
            refine ⟨fun e he => ?_, fun e he => ?_,
                    fun _ _ _ e => ⟨fun he => ?_, fun he => ?_⟩⟩ <;>
              · rw [hr] at he
                exact RunResult.noConfusion he

/-- A run environment in which every external call returns data. -/
def c6DemoEnv : Env :=
  { fetch1 := some demoRegistry, resp0 := some "bad0", resp1 := some "bad1",
    judgeResp := some "no json", fetch2 := some demoRegistry,
    renderResp := some { success := true, error_message := none, url := "http://img" },
    user := "u", pw := "p" }

/-- A run environment whose first language-model call raises. -/
def c6CexEnv : Env :=
  { fetch1 := some demoRegistry, resp0 := none, resp1 := none, judgeResp := none,
    fetch2 := none, renderResp := none, user := "u", pw := "p" }

/-- C6 witness: with all model responses returned (even malformed ones),
a concrete run cannot fail at Proposing or Judging. -/
theorem c6_witness :
    run_chain c6DemoEnv (initState "cats" "Two Buttons") ≠
      .failed .proposing .transport ∧
    run_chain c6DemoEnv (initState "cats" "Two Buttons") ≠
      .failed .judging .transport :=
  (c6_failure_reachability c6DemoEnv (initState "cats" "Two Buttons")).2.2
    rfl rfl rfl .transport

/-- C6 counterexample: a transport-level error of the language-model
client during the proposer's first call aborts the run at the Proposing
stage, refuting the claim that Proposing never transitions to Failed for
any outcome of its external language-model calls. -/
theorem c6_counterexample :
    run_chain c6CexEnv (initState "cats" "Two Buttons") =
      .failed .proposing .transport := rfl

/-- C10: the rendering stage performs its own fresh registry fetch and
case-insensitive name match; if the template name is absent from this
second snapshot, the run aborts at Rendering with the template-not-found
error even though Resolving matched on the first snapshot and Proposing
and Judging completed. -/
theorem c10_render_refetches_registry (env : Env) (st : MemeState)
    (reg1 reg2 : List Template) (t0 : Template)
    (h1 : env.fetch1 = some reg1)
    (hm : reg1.find? (template_matches st.template_name) = some t0)
    (hr0 : env.resp0.isSome = true) (hr1 : env.resp1.isSome = true)
    (hj : env.judgeResp.isSome = true)
    (h2 : env.fetch2 = some reg2)
    (hn : reg2.find? (template_matches st.template_name) = none) :
    run_chain env st =
      .failed .rendering (.templateNotFound (template_not_found_msg st.template_name)) := by
  rcases Option.isSome_iff_exists.mp hr0 with ⟨r0, hr0e⟩
  rcases Option.isSome_iff_exists.mp hr1 with ⟨r1, hr1e⟩
  rcases Option.isSome_iff_exists.mp hj with ⟨jr, hjre⟩
  have hg : get_template_info env.fetch1 st = .ok { st with box_count := t0.box_count } := by
    simp [get_template_info, h1, hm]
  have hgen : generate_multiple_captions env.resp0 env.resp1
      { st with box_count := t0.box_count } =
      .ok { { st with box_count := t0.box_count } with
              caption_proposals := [propose_one 0 r0, propose_one 1 r1] } := by
    simp [generate_multiple_captions, hr0e, hr1e]
  obtain ⟨st3, hsel, hprops, htn, hidx, hcap⟩ := select_ok_of_proposer r0 r1 jr
    { { st with box_count := t0.box_count } with
        caption_proposals := [propose_one 0 r0, propose_one 1 r1] } rfl
  have htn2 : st3.template_name = st.template_name := htn
  have hcall : call_imgflip_api env.fetch2 env.renderResp env.user env.pw st3 =
      .error (.templateNotFound (template_not_found_msg st.template_name)) := by
    simp [call_imgflip_api, h2, htn2, hn]
  simp [run_chain, hg, hgen, hjre, hsel, hcall]

/-- A run environment whose second registry fetch returns an empty
snapshot although the first contained the requested template. -/
def c10DemoEnv : Env :=
  { fetch1 := some demoRegistry, resp0 := some "bad0", resp1 := some "bad1",
    judgeResp := some "no json", fetch2 := some [], renderResp := none,
    user := "u", pw := "p" }

/-- C10 witness: a concrete run whose second snapshot lost the template
aborts at Rendering with the template-not-found error. -/
theorem c10_witness :
    run_chain c10DemoEnv (initState "cats" "Two Buttons") =
      .failed .rendering (.templateNotFound (template_not_found_msg "Two Buttons")) :=
  c10_render_refetches_registry c10DemoEnv (initState "cats" "Two Buttons")
    demoRegistry [] { name := "Two Buttons", id := "87743020", box_count := 2 }
    rfl rfl rfl rfl rfl rfl rfl
